import Mathlib

/-
Verification development for the PagSeguro payment-gateway adapter
(saleor/payment/gateways/pagseguro/__init__.py).

The module is embedded shallowly: pure helpers become Lean functions; each
call to the external processor SDK is modelled by an explicit parameter
describing the outcome of that call (a normal raw result, or the NotFoundError
the SDK may raise); Python exceptions crossing the module boundary become the
error side of an Except value.

The Python file defines authorize, capture and void twice; the later dummy
definitions silently shadow the earlier ones, so the exposed operations are
the dummy variants plus the single (real) refund and process_payment. The
shadowed first definition of authorize is kept here under the name
authorize_v1.
-/

namespace PagSeguro

/-- Fixed-point decimal amounts (Python Decimal) are modelled as rationals. -/
abbrev Decimal := Rat

/-- TransactionKind: closed enum of the transaction categories used here. -/
inductive TransactionKind where
  | AUTH
  | CAPTURE
  | VOID
  | REFUND
deriving DecidableEq, Repr

/-- Modelled from the spec: ChargeStatus (imported from the payment package,
not under src/) is a closed enum of test-mode markers whose codes can appear
as the token value; NOT_CHARGED and FULLY_REFUNDED are the two named by the
spec. -/
def ChargeStatus.NOT_CHARGED : String := "not-charged"

/-- Modelled from the spec: the FULLY_REFUNDED charge-status code. -/
def ChargeStatus.FULLY_REFUNDED : String := "fully-refunded"

/-- Modelled from the spec: the set of recognized ChargeStatus codes, as the
keys of dict(ChargeStatus.CHOICES). -/
def ChargeStatus.CHOICES : List String :=
  ["not-charged", "partially-charged", "fully-charged",
   "partially-refunded", "fully-refunded"]

/-- Billing data carried by a PaymentData (interface shape from the spec). -/
structure Billing where
  first_name : String
  last_name : String
  company_name : String
  postal_code : String
  street_address_1 : String
  street_address_2 : String
  city : String
  country_area : String
  country : String
deriving DecidableEq, Repr

/-- Modelled from the spec: PaymentData (saleor payment interface, not under
src/) — the immutable description of one payment attempt. -/
structure PaymentData where
  amount : Decimal
  currency : String
  token : String
  customer_id : Option String := none
  customer_email : String := ""
  customer_ip_address : Option String := none
  billing : Option Billing := none
  order_id : Option String := none
  reuse_source : Bool := false
deriving DecidableEq, Repr

/-- Credential bag passed verbatim to the gateway factory. Python treats a
missing credential as a falsy value; here a missing string credential is the
empty string. -/
structure ConnectionParams where
  sandbox_mode : Bool
  merchant_id : String
  public_key : String
  private_key : String
deriving DecidableEq, Repr

/-- Modelled from the spec: GatewayConfig (saleor payment interface, not under
src/) — read-only per-call configuration. -/
structure GatewayConfig where
  auto_capture : Bool
  require_3d_secure : Bool := false
  store_customer : Bool := false
  connection_params : ConnectionParams
deriving DecidableEq, Repr

/-- An error object inside a raw processor result (code and message
attributes of a deep error). -/
structure RawError where
  code : String
  message : String
deriving DecidableEq, Repr

/-- An error entry dict built by extract_gateway_response and consumed by
get_error_for_client. -/
structure ErrorEntry where
  code : String
  message : String
deriving DecidableEq, Repr

/-- ERROR_CODES_WHITELIST: dict of code to error message override; an empty
override means the gateway message is used. -/
def ERROR_CODES_WHITELIST : List (String × String) :=
  [("91506",
    "\n        Cannot refund transaction unless it is settled.\n        Please try again later. Settlement time might vary depending\n        on the issuers bank.")]

/-- Dictionary lookup in ERROR_CODES_WHITELIST. -/
def whitelist_lookup (code : String) : Option String :=
  (ERROR_CODES_WHITELIST.find? (fun p => p.1 = code)).map (fun p => p.2)

/-- The pgettext_lazy default message of get_error_for_client, modelled as
its literal text. -/
def default_msg : String :=
  "Unable to process transaction. Please try again in a moment"

/-- The for-loop of get_error_for_client: return the override (or the gateway
message when the override is falsy) for the first whitelisted code, else the
default message. -/
def get_error_for_client_loop : List ErrorEntry → String
  | [] => default_msg
  | e :: rest =>
    match whitelist_lookup e.code with
    | some ov => if ov = "" then e.message else ov
    | none => get_error_for_client_loop rest

/-- get_error_for_client: filter all error messages and decide which one is
visible for the client. -/
def get_error_for_client (errors : List ErrorEntry) : String :=
  if errors.isEmpty then ""
  else get_error_for_client_loop errors

/-- The transaction object inside a raw processor result. getattr with a
default models the possibly missing id attribute. -/
structure BtTransaction where
  id : Option String := none
  currency_iso_code : String
  amount : Decimal
  credit_card : Option String := none
  customer_details_id : String
deriving DecidableEq, Repr

/-- RawResult: the shape consumed from the processor SDK. deep_errors is only
read when is_success is false. -/
structure RawResult where
  is_success : Bool
  errors_deep : List RawError := []
  transaction : Option BtTransaction := none
deriving DecidableEq, Repr

/-- The dict returned by extract_gateway_response: a missing key is none. -/
structure ExtractedResponse where
  errors : List ErrorEntry
  transaction_id : Option String := none
  currency : Option String := none
  amount : Option Decimal := none
  credit_card : Option String := none
  customer_id : Option String := none
deriving DecidableEq, Repr

/-- extract_gateway_response: extract data from the PagSeguro response that
will be stored locally. -/
def extract_gateway_response (r : RawResult) : ExtractedResponse :=
  let errors : List ErrorEntry :=
    if r.is_success then []
    else r.errors_deep.map (fun e => { code := e.code, message := e.message })
  match r.transaction with
  | none => { errors := errors }
  | some bt =>
    { transaction_id := some (bt.id.getD "")
      currency := some bt.currency_iso_code
      amount := some bt.amount
      credit_card := bt.credit_card
      customer_id := some bt.customer_details_id
      errors := errors }

/-- Python exceptions that the module can let cross its boundary:
ImproperlyConfigured from the gateway factory, and the PagSeguroException
raised on a processor NotFoundError. -/
inductive GatewayError where
  | improperlyConfigured (msg : String)
  | pagSeguroException (msg : String)
deriving DecidableEq, Repr

/-- Modelled from the spec: DEFAULT_ERROR_MESSAGE (imported from the sibling
errors module, not under src/) is the fixed message wrapped on a processor
not-found failure. -/
def DEFAULT_ERROR_MESSAGE : String := "payment could not be processed"

/-- Sandbox or production endpoint of the processor SDK. -/
inductive Environment where
  | Sandbox
  | Production
deriving DecidableEq, Repr

/-- The configured SDK gateway object. -/
structure Gateway where
  environment : Environment
  merchant_id : String
  public_key : String
  private_key : String
deriving DecidableEq, Repr

/-- get_pagseguro_gateway: build a fresh SDK gateway from the connection
params; raise ImproperlyConfigured when a credential is falsy. -/
def get_pagseguro_gateway (p : ConnectionParams) : Except GatewayError Gateway :=
  if p.merchant_id = "" ∨ p.private_key = "" ∨ p.public_key = "" then
    .error (.improperlyConfigured "Incorrectly configured PagSeguro gateway.")
  else
    .ok { environment := if p.sandbox_mode then .Sandbox else .Production
          merchant_id := p.merchant_id
          public_key := p.public_key
          private_key := p.private_key }

/-- One processor SDK call either raises NotFoundError or yields a raw
result. -/
inductive ProcessorOutcome where
  | notFound
  | result (raw : RawResult)
deriving DecidableEq, Repr

/-- Options dict of a sale payload; the vault and 3-D-secure entries are only
present on the new-customer path. -/
structure SaleOptions where
  submit_for_settlement : Bool
  store_in_vault_on_success : Option Bool := none
  three_d_secure_required : Option Bool := none
deriving DecidableEq, Repr

/-- Billing dict built by get_billing_data (renamed keys). -/
structure BillingPayload where
  first_name : String
  last_name : String
  company : String
  postal_code : String
  street_address : String
  extended_address : String
  locality : String
  region : String
  country_code_alpha2 : String
deriving DecidableEq, Repr

/-- get_billing_data: empty dict (none) when the payment has no billing. -/
def get_billing_data (pd : PaymentData) : Option BillingPayload :=
  match pd.billing with
  | none => none
  | some b =>
    some { first_name := b.first_name
           last_name := b.last_name
           company := b.company_name
           postal_code := b.postal_code
           street_address := b.street_address_1
           extended_address := b.street_address_2
           locality := b.city
           region := b.country_area
           country_code_alpha2 := b.country }

/-- Customer info dict built by get_customer_data. -/
structure CustomerPayload where
  order_id : Option String
  billing : Option BillingPayload
  customer_ip : String
  customer_email : String
deriving DecidableEq, Repr

/-- get_customer_data: provide customer info. -/
def get_customer_data (pd : PaymentData) : CustomerPayload :=
  { order_id := pd.order_id
    billing := get_billing_data pd
    customer_ip := pd.customer_ip_address.getD ""
    customer_email := pd.customer_email }

/-- The payload of one gateway.transaction.sale call. -/
structure SaleRequest where
  amount : Decimal
  payment_method_nonce : Option String := none
  customer_id : Option String := none
  options : SaleOptions
  customer_data : CustomerPayload
deriving DecidableEq, Repr

/-- transaction_for_new_customer: build a gateway and submit a sale with
nonce, vault and 3-D-secure options. The SDK behaviour is the sale
parameter. -/
def transaction_for_new_customer (pd : PaymentData) (config : GatewayConfig)
    (sale : SaleRequest → ProcessorOutcome) : Except GatewayError ProcessorOutcome :=
  match get_pagseguro_gateway config.connection_params with
  | .error e => .error e
  | .ok _gateway =>
    .ok (sale
      { amount := pd.amount
        payment_method_nonce := some pd.token
        options :=
          { submit_for_settlement := config.auto_capture
            store_in_vault_on_success := some pd.reuse_source
            three_d_secure_required := some config.require_3d_secure }
        customer_data := get_customer_data pd })

/-- transaction_for_existing_customer: build a gateway and submit a sale with
the stored customer id and settlement option only. -/
def transaction_for_existing_customer (pd : PaymentData) (config : GatewayConfig)
    (sale : SaleRequest → ProcessorOutcome) : Except GatewayError ProcessorOutcome :=
  match get_pagseguro_gateway config.connection_params with
  | .error e => .error e
  | .ok _gateway =>
    .ok (sale
      { amount := pd.amount
        customer_id := pd.customer_id
        options := { submit_for_settlement := config.auto_capture }
        customer_data := get_customer_data pd })

/-- Modelled from the spec: GatewayResponse (saleor payment interface, not
under src/) — the Result shape returned to the caller; optional fields keep
the dataclass defaults. -/
structure GatewayResponse where
  is_success : Bool
  action_required : Bool
  kind : TransactionKind
  amount : Decimal
  currency : String
  transaction_id : String
  customer_id : Option String := none
  error : Option String := none
  raw_response : Option ExtractedResponse := none
deriving DecidableEq, Repr

/-- The first definition of authorize (lines 136 to 162), later shadowed by
the dummy redefinition. Branches on a falsy customer_id, catches the SDK
NotFoundError and re-raises PagSeguroException, then normalizes and
classifies the raw result; kind is CAPTURE when auto_capture else AUTH. -/
def authorize_v1 (pd : PaymentData) (config : GatewayConfig)
    (sale : SaleRequest → ProcessorOutcome) : Except GatewayError GatewayResponse :=
  match (if pd.customer_id.getD "" = "" then
           transaction_for_new_customer pd config sale
         else
           transaction_for_existing_customer pd config sale) with
  | .error e => .error e
  | .ok .notFound => .error (.pagSeguroException DEFAULT_ERROR_MESSAGE)
  | .ok (.result result) =>
    let gateway_response := extract_gateway_response result
    let error := get_error_for_client gateway_response.errors
    let kind := if config.auto_capture then TransactionKind.CAPTURE else TransactionKind.AUTH
    .ok { is_success := result.is_success
          action_required := false
          kind := kind
          amount := gateway_response.amount.getD pd.amount
          currency := gateway_response.currency.getD pd.currency
          customer_id := gateway_response.customer_id
          transaction_id := gateway_response.transaction_id.getD pd.token
          error := some error
          raw_response := some gateway_response }

/-- dummy_success: always true. -/
def dummy_success : Bool := true

/-- The exposed authorize: the dummy redefinition (lines 358 to 373) that
shadows authorize_v1. No processor call, config ignored, fixed AUTH kind. -/
def authorize (pd : PaymentData) (_config : GatewayConfig) : GatewayResponse :=
  let success := dummy_success
  let error : Option String :=
    if success then none else some "Unable to authorize transaction"
  { is_success := success
    action_required := false
    kind := TransactionKind.AUTH
    amount := pd.amount
    currency := pd.currency
    transaction_id := pd.token
    error := error }

/-- The exposed void: the dummy redefinition (lines 376 to 389). -/
def void (pd : PaymentData) (_config : GatewayConfig) : GatewayResponse :=
  let success := dummy_success
  let error : Option String :=
    if success then none else some "Unable to void the transaction."
  { is_success := success
    action_required := false
    kind := TransactionKind.VOID
    amount := pd.amount
    currency := pd.currency
    transaction_id := pd.token
    error := error }

/-- The exposed capture: the dummy redefinition (lines 392 to 407). -/
def capture (pd : PaymentData) (_config : GatewayConfig) : GatewayResponse :=
  let success := dummy_success
  let error : Option String :=
    if success then none else some "Unable to process capture"
  { is_success := success
    action_required := false
    kind := TransactionKind.CAPTURE
    amount := pd.amount
    currency := pd.currency
    transaction_id := pd.token
    error := error }

/-- The payload of one gateway.transaction.refund call. -/
structure RefundRequest where
  transaction_id : String
  amount_or_options : Decimal
deriving DecidableEq, Repr

/-- The exposed refund (lines 250 to 292, never shadowed): build a gateway,
call the processor refund, re-raise PagSeguroException on NotFoundError, then
return the dummy-success response; the normalization code after that return
(lines 278 to 292) is unreachable. -/
def refund (pd : PaymentData) (config : GatewayConfig)
    (processor_refund : RefundRequest → ProcessorOutcome) :
    Except GatewayError GatewayResponse :=
  match get_pagseguro_gateway config.connection_params with
  | .error e => .error e
  | .ok _gateway =>
    match processor_refund
        { transaction_id := pd.token, amount_or_options := pd.amount } with
    | .notFound => .error (.pagSeguroException DEFAULT_ERROR_MESSAGE)
    | .result _result =>
      let success := dummy_success
      let error : Option String :=
        if success then none else some "Unable to process refund"
      .ok { is_success := success
            action_required := false
            kind := TransactionKind.REFUND
            amount := pd.amount
            currency := pd.currency
            transaction_id := pd.token
            error := error }

/-- process_payment (lines 295 to 318): a non-ChargeStatus token delegates to
capture; otherwise the test path chains authorize, capture and refund on the
embedded charge status. The names resolve to the exposed (dummy) authorize
and capture and the real refund; the source locals token, charge_status,
authorize_response and capture_response are inlined, which preserves the
semantics because the dummy operations are pure. -/
def process_payment (pd : PaymentData) (config : GatewayConfig)
    (processor_refund : RefundRequest → ProcessorOutcome) :
    Except GatewayError GatewayResponse :=
  if pd.token ∉ ChargeStatus.CHOICES then
    .ok (capture pd config)
  else if pd.token = ChargeStatus.NOT_CHARGED then
    .ok (authorize pd config)
  else if !config.auto_capture then
    .ok (authorize pd config)
  else if pd.token = ChargeStatus.FULLY_REFUNDED then
    refund pd config processor_refund
  else
    .ok (capture pd config)

/-- The gateway operations process_payment can invoke. -/
inductive GatewayOp where
  | authorizeOp
  | captureOp
  | refundOp
deriving DecidableEq, Repr

/-- The sequence of gateway operations process_payment invokes, mirroring its
control flow. -/
def process_payment_calls (pd : PaymentData) (config : GatewayConfig) : List GatewayOp :=
  if pd.token ∉ ChargeStatus.CHOICES then
    [.captureOp]
  else if pd.token = ChargeStatus.NOT_CHARGED then
    [.authorizeOp]
  else if !config.auto_capture then
    [.authorizeOp]
  else if pd.token = ChargeStatus.FULLY_REFUNDED then
    [.authorizeOp, .captureOp, .refundOp]
  else
    [.authorizeOp, .captureOp]

/-! Concrete values used by counterexamples and witnesses. -/

/-- A payment with an opaque (non ChargeStatus) token. -/
def pdEx : PaymentData :=
  { amount := 10, currency := "USD", token := "tok_abc123" }

/-- A payment whose token is the FULLY_REFUNDED charge-status marker. -/
def pdRefunded : PaymentData :=
  { amount := 10, currency := "USD", token := "fully-refunded" }

/-- A config with auto_capture on and complete credentials. -/
def cfgEx : GatewayConfig :=
  { auto_capture := true
    connection_params :=
      { sandbox_mode := true
        merchant_id := "merchant"
        public_key := "pub"
        private_key := "priv" } }

/-- A successful raw processor result without a transaction object. -/
def rawEx : RawResult := { is_success := true }

/-- A processor behaviour that always raises NotFoundError. -/
def procNotFound : RefundRequest → ProcessorOutcome := fun _ => .notFound

/-- A processor behaviour that always returns rawEx. -/
def procOk : RefundRequest → ProcessorOutcome := fun _ => .result rawEx

/-- An SDK sale behaviour that always returns rawEx. -/
def saleOk : SaleRequest → ProcessorOutcome := fun _ => .result rawEx

/-- Helper: any successful return of refund is the fixed dummy-success
record. -/
theorem refund_ok_shape (pd : PaymentData) (config : GatewayConfig)
    (processor_refund : RefundRequest → ProcessorOutcome) (r : GatewayResponse)
    (h : refund pd config processor_refund = .ok r) :
    r = { is_success := true
          action_required := false
          kind := TransactionKind.REFUND
          amount := pd.amount
          currency := pd.currency
          transaction_id := pd.token
          error := none } := by
  unfold refund at h
  split at h
  · exact Except.noConfusion h
  · split at h
    · exact Except.noConfusion h
    · injection h with h
      exact h.symm

/-- C1 counterexample: a config with auto_capture true for which the exposed
authorize still returns kind AUTH, not CAPTURE. -/
theorem authorize_kind_counterexample :
    cfgEx.auto_capture = true ∧
    (authorize pdEx cfgEx).kind = TransactionKind.AUTH ∧
    (authorize pdEx cfgEx).kind ≠ TransactionKind.CAPTURE := by
  refine ⟨rfl, rfl, ?_⟩
  decide

/-- C1 (amended): the exposed authorize (the dummy redefinition) returns kind
AUTH for every config; it is the shadowed first definition authorize_v1 whose
successful Result has kind CAPTURE when config.auto_capture is true and AUTH
when it is false. -/
theorem authorize_kind_policy (pd : PaymentData) (config : GatewayConfig)
    (sale : SaleRequest → ProcessorOutcome) (r : GatewayResponse)
    (h : authorize_v1 pd config sale = .ok r) :
    (authorize pd config).kind = TransactionKind.AUTH ∧
    r.kind = (if config.auto_capture then TransactionKind.CAPTURE
              else TransactionKind.AUTH) := by
  refine ⟨rfl, ?_⟩
  unfold authorize_v1 at h
  split at h
  · exact Except.noConfusion h
  · exact Except.noConfusion h
  · injection h with h
    rw [← h]

/-- The successful authorize_v1 Result at the concrete witness inputs. -/
def authorizeV1ResultEx : GatewayResponse :=
  { is_success := true
    action_required := false
    kind := TransactionKind.CAPTURE
    amount := 10
    currency := "USD"
    transaction_id := "tok_abc123"
    customer_id := none
    error := some ""
    raw_response := some { errors := [] } }

/-- Witness for C1 (amended) at concrete inputs. -/
theorem authorize_kind_policy_witness :
    authorize_v1 pdEx cfgEx saleOk = .ok authorizeV1ResultEx ∧
    ((authorize pdEx cfgEx).kind = TransactionKind.AUTH ∧
     authorizeV1ResultEx.kind =
       (if cfgEx.auto_capture then TransactionKind.CAPTURE
        else TransactionKind.AUTH)) :=
  ⟨rfl, authorize_kind_policy pdEx cfgEx saleOk authorizeV1ResultEx rfl⟩

/-- C2 counterexample: with complete credentials and a processor not-found,
refund evaluates to the raised exception (the error side of the boundary),
not to a Result with is_success false, and the raised exception is not the
configuration error. -/
theorem refund_not_found_counterexample :
    refund pdEx cfgEx procNotFound =
      .error (.pagSeguroException DEFAULT_ERROR_MESSAGE) ∧
    (refund pdEx cfgEx procNotFound).isOk = false ∧
    GatewayError.pagSeguroException DEFAULT_ERROR_MESSAGE ≠
      GatewayError.improperlyConfigured "Incorrectly configured PagSeguro gateway." := by
  refine ⟨rfl, rfl, ?_⟩
  decide

/-- C2 (amended): when the credentials are complete, the only hard failure
refund lets cross the operation boundary is the PagSeguroException wrapping
DEFAULT_ERROR_MESSAGE, and it escapes exactly when the processor reports the
transaction was not found; the failure is raised past the boundary, not
returned as a failed Result. -/
theorem refund_error_propagation (pd : PaymentData) (config : GatewayConfig)
    (processor_refund : RefundRequest → ProcessorOutcome) (e : GatewayError)
    (hm : config.connection_params.merchant_id ≠ "")
    (hpu : config.connection_params.public_key ≠ "")
    (hpr : config.connection_params.private_key ≠ "")
    (h : refund pd config processor_refund = .error e) :
    e = .pagSeguroException DEFAULT_ERROR_MESSAGE ∧
    processor_refund
      { transaction_id := pd.token, amount_or_options := pd.amount } =
      .notFound := by
  unfold refund get_pagseguro_gateway at h
  rw [if_neg (by simp [hm, hpu, hpr])] at h
  cases hp : processor_refund
      { transaction_id := pd.token, amount_or_options := pd.amount } with
  | notFound =>
    rw [hp] at h
    injection h with h
    exact ⟨h.symm, rfl⟩
  | result raw =>
    rw [hp] at h
    exact Except.noConfusion h

/-- Witness for C2 (amended) at concrete inputs. -/
theorem refund_error_propagation_witness :
    (cfgEx.connection_params.merchant_id ≠ "" ∧
     cfgEx.connection_params.public_key ≠ "" ∧
     cfgEx.connection_params.private_key ≠ "" ∧
     refund pdEx cfgEx procNotFound =
       .error (.pagSeguroException DEFAULT_ERROR_MESSAGE)) ∧
    ((.pagSeguroException DEFAULT_ERROR_MESSAGE : GatewayError) =
       .pagSeguroException DEFAULT_ERROR_MESSAGE ∧
     procNotFound
       { transaction_id := pdEx.token, amount_or_options := pdEx.amount } =
       .notFound) :=
  ⟨⟨by decide, by decide, by decide, rfl⟩,
   refund_error_propagation pdEx cfgEx procNotFound
     (.pagSeguroException DEFAULT_ERROR_MESSAGE)
     (by decide) (by decide) (by decide) rfl⟩

/-- C3: whenever the factory succeeds and the processor call returns a raw
result, refund returns the hard-wired dummy success: is_success true, kind
REFUND, error none, and amount, currency, transaction_id verbatim from the
PaymentData; the right-hand side does not depend on the raw result, so the
normalization code below the early return never contributes. -/
theorem refund_hard_wired_success (pd : PaymentData) (config : GatewayConfig)
    (processor_refund : RefundRequest → ProcessorOutcome) (raw : RawResult)
    (hm : config.connection_params.merchant_id ≠ "")
    (hpu : config.connection_params.public_key ≠ "")
    (hpr : config.connection_params.private_key ≠ "")
    (h : processor_refund
      { transaction_id := pd.token, amount_or_options := pd.amount } =
      .result raw) :
    refund pd config processor_refund =
      .ok { is_success := true
            action_required := false
            kind := TransactionKind.REFUND
            amount := pd.amount
            currency := pd.currency
            transaction_id := pd.token
            error := none } := by
  unfold refund get_pagseguro_gateway
  rw [if_neg (by simp [hm, hpu, hpr]), h]
  rfl

/-- Witness for C3 at concrete inputs. -/
theorem refund_hard_wired_success_witness :
    (cfgEx.connection_params.merchant_id ≠ "" ∧
     cfgEx.connection_params.public_key ≠ "" ∧
     cfgEx.connection_params.private_key ≠ "" ∧
     procOk { transaction_id := pdEx.token, amount_or_options := pdEx.amount } =
       .result rawEx) ∧
    refund pdEx cfgEx procOk =
      .ok { is_success := true
            action_required := false
            kind := TransactionKind.REFUND
            amount := pdEx.amount
            currency := pdEx.currency
            transaction_id := pdEx.token
            error := none } :=
  ⟨⟨by decide, by decide, by decide, rfl⟩,
   refund_hard_wired_success pdEx cfgEx procOk rawEx
     (by decide) (by decide) (by decide) rfl⟩

/-- C4: for a token that is not a recognized ChargeStatus code,
process_payment returns exactly the capture Result and invokes only capture,
never authorize or refund. -/
theorem process_payment_real_token (pd : PaymentData) (config : GatewayConfig)
    (processor_refund : RefundRequest → ProcessorOutcome)
    (h : pd.token ∉ ChargeStatus.CHOICES) :
    process_payment pd config processor_refund = .ok (capture pd config) ∧
    process_payment_calls pd config = [GatewayOp.captureOp] := by
  constructor
  · unfold process_payment
    rw [if_pos h]
  · unfold process_payment_calls
    rw [if_pos h]

/-- Witness for C4 at concrete inputs. -/
theorem process_payment_real_token_witness :
    pdEx.token ∉ ChargeStatus.CHOICES ∧
    (process_payment pdEx cfgEx procOk = .ok (capture pdEx cfgEx) ∧
     process_payment_calls pdEx cfgEx = [GatewayOp.captureOp]) :=
  ⟨by decide, process_payment_real_token pdEx cfgEx procOk (by decide)⟩

/-- C5: with token FULLY_REFUNDED and auto_capture true, process_payment
returns the refund Result, whose kind is REFUND, after invoking authorize,
capture and refund in order, so the capture Result is discarded. -/
theorem process_payment_fully_refunded (pd : PaymentData) (config : GatewayConfig)
    (processor_refund : RefundRequest → ProcessorOutcome) (r : GatewayResponse)
    (htok : pd.token = ChargeStatus.FULLY_REFUNDED)
    (hcap : config.auto_capture = true)
    (hok : refund pd config processor_refund = .ok r) :
    process_payment pd config processor_refund = .ok r ∧
    r.kind = TransactionKind.REFUND ∧
    process_payment_calls pd config =
      [GatewayOp.authorizeOp, GatewayOp.captureOp, GatewayOp.refundOp] := by
  have hshape := refund_ok_shape pd config processor_refund r hok
  refine ⟨?_, by rw [hshape], ?_⟩
  · unfold process_payment
    rw [htok, hcap]
    rw [if_neg (by decide), if_neg (by decide)]
    simp only [Bool.not_true]
    rw [if_neg (by decide), if_pos trivial]
    exact hok
  · unfold process_payment_calls
    rw [htok, hcap]
    rw [if_neg (by decide), if_neg (by decide)]
    simp only [Bool.not_true]
    rw [if_neg (by decide), if_pos trivial]

/-- Witness for C5 at concrete inputs. -/
theorem process_payment_fully_refunded_witness :
    (pdRefunded.token = ChargeStatus.FULLY_REFUNDED ∧
     cfgEx.auto_capture = true ∧
     refund pdRefunded cfgEx procOk =
       .ok { is_success := true
             action_required := false
             kind := TransactionKind.REFUND
             amount := pdRefunded.amount
             currency := pdRefunded.currency
             transaction_id := pdRefunded.token
             error := none }) ∧
    (process_payment pdRefunded cfgEx procOk =
       .ok { is_success := true
             action_required := false
             kind := TransactionKind.REFUND
             amount := pdRefunded.amount
             currency := pdRefunded.currency
             transaction_id := pdRefunded.token
             error := none } ∧
     GatewayResponse.kind
       { is_success := true
         action_required := false
         kind := TransactionKind.REFUND
         amount := pdRefunded.amount
         currency := pdRefunded.currency
         transaction_id := pdRefunded.token
         error := none } = TransactionKind.REFUND ∧
     process_payment_calls pdRefunded cfgEx =
       [GatewayOp.authorizeOp, GatewayOp.captureOp, GatewayOp.refundOp]) :=
  ⟨⟨rfl, rfl, rfl⟩,
   process_payment_fully_refunded pdRefunded cfgEx procOk _ rfl rfl rfl⟩

/-- The classifier exactly as the spec words it: an empty list gives the
empty string; otherwise the first entry whose code is whitelisted determines
the output, the override or the entry message when the override is empty;
with no whitelisted entry the fixed generic message is returned. -/
def classify_spec (errors : List ErrorEntry) : String :=
  if errors = [] then ""
  else
    match errors.find? (fun e => (whitelist_lookup e.code).isSome) with
    | some e =>
      match whitelist_lookup e.code with
      | some ov => if ov = "" then e.message else ov
      | none => default_msg
    | none => default_msg

/-- Helper: the loop of get_error_for_client agrees with a first-match
search. -/
theorem loop_eq_find (l : List ErrorEntry) :
    get_error_for_client_loop l =
      (match l.find? (fun e => (whitelist_lookup e.code).isSome) with
       | some e =>
         match whitelist_lookup e.code with
         | some ov => if ov = "" then e.message else ov
         | none => default_msg
       | none => default_msg) := by
  induction l with
  | nil => rfl
  | cons e rest ih =>
    cases hw : whitelist_lookup e.code with
    | some ov =>
      rw [List.find?_cons_of_pos _ (by simp [hw])]
      simp [get_error_for_client_loop, hw]
    | none =>
      rw [List.find?_cons_of_neg _ (by simp [hw])]
      simp only [get_error_for_client_loop, hw]
      exact ih

/-- C6: get_error_for_client coincides with the reference classifier from the
spec on every error list. -/
theorem get_error_for_client_eq_spec (errors : List ErrorEntry) :
    get_error_for_client errors = classify_spec errors := by
  cases errors with
  | nil => rfl
  | cons e rest =>
    rw [get_error_for_client, classify_spec,
        if_neg (by simp), if_neg (by simp)]
    exact loop_eq_find (e :: rest)

/-- C7: a raw result with is_success false and no transaction object
normalizes to a map holding only the errors field, one code and message
entry per deep error, with every other field absent; and a raw result whose
transaction lacks an id normalizes with transaction_id defaulted to the
empty string. -/
theorem extract_gateway_response_fields (r r2 : RawResult) (bt : BtTransaction)
    (h1 : r.is_success = false) (h2 : r.transaction = none)
    (h3 : r2.transaction = some bt) (h4 : bt.id = none) :
    extract_gateway_response r =
      { errors := r.errors_deep.map (fun e => { code := e.code, message := e.message })
        transaction_id := none
        currency := none
        amount := none
        credit_card := none
        customer_id := none } ∧
    (extract_gateway_response r2).transaction_id = some "" := by
  constructor
  · unfold extract_gateway_response
    rw [h2, h1]
    rfl
  · unfold extract_gateway_response
    rw [h3]
    simp [h4]

/-- A failed raw result with two deep errors and no transaction. -/
def rawFailEx : RawResult :=
  { is_success := false
    errors_deep := [{ code := "81503", message := "processor detail a" },
                    { code := "91506", message := "processor detail b" }] }

/-- A raw result whose transaction object has no id attribute. -/
def rawNoIdEx : RawResult :=
  { is_success := true
    transaction := some { id := none
                          currency_iso_code := "BRL"
                          amount := 7
                          customer_details_id := "cust-1" } }

/-- Witness for C7 at concrete inputs. -/
theorem extract_gateway_response_fields_witness :
    (rawFailEx.is_success = false ∧ rawFailEx.transaction = none ∧
     rawNoIdEx.transaction =
       some { id := none
              currency_iso_code := "BRL"
              amount := 7
              customer_details_id := "cust-1" } ∧
     Option.none = (none : Option String)) ∧
    (extract_gateway_response rawFailEx =
       { errors := rawFailEx.errors_deep.map
           (fun e => { code := e.code, message := e.message })
         transaction_id := none
         currency := none
         amount := none
         credit_card := none
         customer_id := none } ∧
     (extract_gateway_response rawNoIdEx).transaction_id = some "") :=
  ⟨⟨rfl, rfl, rfl, rfl⟩,
   extract_gateway_response_fields rawFailEx rawNoIdEx _ rfl rfl rfl rfl⟩

/-- C8: every Result built by an exposed operation (the dummy authorize,
capture and void, refund when it returns, and process_payment when it
returns) has a non-null error exactly when is_success is false; the refund
dummy-success path also satisfies the equivalence. -/
theorem exposed_error_iff (pd : PaymentData) (config : GatewayConfig)
    (processor_refund : RefundRequest → ProcessorOutcome) (r : GatewayResponse)
    (h : r = authorize pd config ∨ r = capture pd config ∨ r = void pd config ∨
         refund pd config processor_refund = .ok r ∨
         process_payment pd config processor_refund = .ok r) :
    (r.error ≠ none ↔ r.is_success = false) := by
  rcases h with h | h | h | h | h
  · subst h; simp [authorize, dummy_success]
  · subst h; simp [capture, dummy_success]
  · subst h; simp [void, dummy_success]
  · rw [refund_ok_shape pd config processor_refund r h]; simp
  · unfold process_payment at h
    split at h
    · injection h with h; rw [← h]; simp [capture, dummy_success]
    · split at h
      · injection h with h; rw [← h]; simp [authorize, dummy_success]
      · split at h
        · injection h with h; rw [← h]; simp [authorize, dummy_success]
        · split at h
          · rw [refund_ok_shape pd config processor_refund r h]; simp
          · injection h with h; rw [← h]; simp [capture, dummy_success]

/-- Witness for C8 at concrete inputs. -/
theorem exposed_error_iff_witness :
    (authorize pdEx cfgEx = authorize pdEx cfgEx ∨
     authorize pdEx cfgEx = capture pdEx cfgEx ∨
     authorize pdEx cfgEx = void pdEx cfgEx ∨
     refund pdEx cfgEx procOk = .ok (authorize pdEx cfgEx) ∨
     process_payment pdEx cfgEx procOk = .ok (authorize pdEx cfgEx)) ∧
    ((authorize pdEx cfgEx).error ≠ none ↔
     (authorize pdEx cfgEx).is_success = false) :=
  ⟨Or.inl rfl, exposed_error_iff pdEx cfgEx procOk _ (Or.inl rfl)⟩

/-- C9: the exposed authorize, capture and void are the dummy variants: for
every PaymentData and every config they return the same fixed successful
Result, with no error, the fixed operation kind, and amount, currency and
transaction_id copied verbatim from the PaymentData; the right-hand sides do
not mention the config or any processor call. -/
theorem exposed_ops_are_dummy (pd : PaymentData) (config : GatewayConfig) :
    authorize pd config =
      { is_success := true
        action_required := false
        kind := TransactionKind.AUTH
        amount := pd.amount
        currency := pd.currency
        transaction_id := pd.token
        customer_id := none
        error := none
        raw_response := none } ∧
    capture pd config =
      { is_success := true
        action_required := false
        kind := TransactionKind.CAPTURE
        amount := pd.amount
        currency := pd.currency
        transaction_id := pd.token
        customer_id := none
        error := none
        raw_response := none } ∧
    void pd config =
      { is_success := true
        action_required := false
        kind := TransactionKind.VOID
        amount := pd.amount
        currency := pd.currency
        transaction_id := pd.token
        customer_id := none
        error := none
        raw_response := none } :=
  ⟨rfl, rfl, rfl⟩

/-- Helper: every override stored in the shipped whitelist is non-empty. -/
theorem whitelist_override_nonempty (c ov : String)
    (h : whitelist_lookup c = some ov) : ov ≠ "" := by
  unfold whitelist_lookup at h
  cases hf : ERROR_CODES_WHITELIST.find? (fun p => p.1 = c) with
  | none => rw [hf] at h; cases h
  | some p =>
    rw [hf] at h
    have hp : p ∈ ERROR_CODES_WHITELIST := List.mem_of_find?_eq_some hf
    simp only [ERROR_CODES_WHITELIST, List.mem_singleton] at hp
    subst hp
    injection h with h
    rw [← h]
    decide

/-- Helper: the classification loop depends only on the code sequence. -/
theorem loop_code_determined (l1 l2 : List ErrorEntry)
    (h : l1.map (fun e => e.code) = l2.map (fun e => e.code)) :
    get_error_for_client_loop l1 = get_error_for_client_loop l2 := by
  induction l1 generalizing l2 with
  | nil =>
    cases l2 with
    | nil => rfl
    | cons b t2 => simp at h
  | cons a t ih =>
    cases l2 with
    | nil => simp at h
    | cons b t2 =>
      simp only [List.map_cons, List.cons.injEq] at h
      obtain ⟨hc, ht⟩ := h
      simp only [get_error_for_client_loop, hc]
      cases hw : whitelist_lookup b.code with
      | none => exact ih t2 ht
      | some ov =>
        have hne := whitelist_override_nonempty _ _ hw
        show (if ov = "" then a.message else ov) =
             (if ov = "" then b.message else ov)
        rw [if_neg hne, if_neg hne]

/-- C10: with the shipped whitelist, get_error_for_client depends only on the
sequence of codes: two error lists with identical code sequences classify to
the same string, so a raw processor message never reaches the caller. -/
theorem get_error_for_client_message_independent (l1 l2 : List ErrorEntry)
    (h : l1.map (fun e => e.code) = l2.map (fun e => e.code)) :
    get_error_for_client l1 = get_error_for_client l2 := by
  cases l1 with
  | nil =>
    cases l2 with
    | nil => rfl
    | cons b t2 => simp at h
  | cons a t =>
    cases l2 with
    | nil => simp at h
    | cons b t2 =>
      rw [get_error_for_client, get_error_for_client,
          if_neg (by simp), if_neg (by simp)]
      exact loop_code_determined _ _ h

/-- Witness for C10 at concrete inputs: two whitelisted entries with
different raw messages classify identically. -/
theorem get_error_for_client_message_independent_witness :
    ([{ code := "91506", message := "raw message a" }] : List ErrorEntry).map
        (fun e => e.code) =
      ([{ code := "91506", message := "raw message b" }] : List ErrorEntry).map
        (fun e => e.code) ∧
    get_error_for_client [{ code := "91506", message := "raw message a" }] =
      get_error_for_client [{ code := "91506", message := "raw message b" }] :=
  ⟨rfl, get_error_for_client_message_independent _ _ rfl⟩

end PagSeguro
